import Mathlib

/-!
Verification of the sidereal-astrology calculation engine
(`services/astro-core-python/internal/`): signs, nakshatras, ayanamsha,
planetary speed and retrograde detection, lunar nodes, ascendant/midheaven
normalisation, Whole Sign and approximate Placidus house systems, and
planet-to-house assignment.

The Python code is embedded shallowly over `ℚ`: exact rational arithmetic
stands in for IEEE doubles.  `int(x)` is `pyInt` (truncation toward zero),
float `x % y` is `pymod` (floor modulus, matching CPython for positive
modulus), and `round(x, 6)` is `pyRound6` (round half to even at six
decimals, CPython's rounding mode).  The Skyfield ephemeris and the
trigonometric core of the ascendant formula are external inputs to the
engine; they enter the embedding as explicit rational parameters.
-/

namespace Astro

/-- Python `int(x)`: truncation toward zero. -/
def pyInt (x : ℚ) : ℤ := if 0 ≤ x then ⌊x⌋ else -⌊-x⌋

/-- Python float `x % y` (exact-arithmetic model): floor modulus.  For a
positive modulus CPython's float `%` is `x - y*floor(x/y)`. -/
def pymod (x y : ℚ) : ℚ := x - y * ⌊x / y⌋

/-- Round to the nearest integer, ties to even (CPython's rounding of
`round`). -/
def roundHalfEven (y : ℚ) : ℤ :=
  if y - (⌊y⌋ : ℚ) < 1/2 then ⌊y⌋
  else if 1/2 < y - (⌊y⌋ : ℚ) then ⌊y⌋ + 1
  else if ⌊y⌋ % 2 = 0 then ⌊y⌋ else ⌊y⌋ + 1

/-- Python `round(x, 6)` in exact arithmetic. -/
def pyRound6 (x : ℚ) : ℚ := (roundHalfEven (x * 1000000) : ℚ) / 1000000

/-- `x` is exactly representable with six decimal places, so `pyRound6`
leaves it unchanged. -/
def sixdec (x : ℚ) : Prop := ∃ k : ℤ, x * 1000000 = (k : ℚ)

/- ## signs.py -/

/-- `SIGNS` (signs.py lines 10-23). -/
def SIGNS : List String :=
  ["Aries", "Taurus", "Gemini", "Cancer", "Leo", "Virgo",
   "Libra", "Scorpio", "Sagittarius", "Capricorn", "Aquarius", "Pisces"]

/-- `SIGN_LORDS` (signs.py lines 26-39). -/
def SIGN_LORDS : List String :=
  ["Mars", "Venus", "Mercury", "Moon", "Sun", "Mercury",
   "Venus", "Mars", "Jupiter", "Saturn", "Saturn", "Jupiter"]

/-- `SIGN_ELEMENTS` (signs.py lines 42-55). -/
def SIGN_ELEMENTS : List String :=
  ["Fire", "Earth", "Air", "Water", "Fire", "Earth",
   "Air", "Water", "Fire", "Earth", "Air", "Water"]

/-- `SIGN_QUALITIES` (signs.py lines 58-71). -/
def SIGN_QUALITIES : List String :=
  ["Cardinal", "Fixed", "Mutable", "Cardinal", "Fixed", "Mutable",
   "Cardinal", "Fixed", "Mutable", "Cardinal", "Fixed", "Mutable"]

/-- Out-of-range list access placeholder (never reached: every index below
is reduced modulo the list length first). -/
def noStr : String := ""

/-- `get_sign_name` (signs.py line 74). -/
def get_sign_name (sign_num : ℤ) : String := SIGNS.getD (sign_num % 12).toNat noStr

/-- `get_sign_lord` (signs.py line 87). -/
def get_sign_lord (sign_num : ℤ) : String := SIGN_LORDS.getD (sign_num % 12).toNat noStr

/-- `get_sign_element` (signs.py line 100). -/
def get_sign_element (sign_num : ℤ) : String := SIGN_ELEMENTS.getD (sign_num % 12).toNat noStr

/-- `get_sign_quality` (signs.py line 105). -/
def get_sign_quality (sign_num : ℤ) : String := SIGN_QUALITIES.getD (sign_num % 12).toNat noStr

/-- The dictionary returned by `longitude_to_sign`. -/
structure SignInfo where
  sign_num : ℤ
  sign_name : String
  sign_lord : String
  norm_degree : ℚ
  element : String
  quality : String
deriving Repr

/-- `longitude_to_sign` (signs.py lines 110-130). -/
def longitude_to_sign (longitude : ℚ) : SignInfo :=
  let sign_num := (pyInt (longitude / 30)) % 12
  { sign_num := sign_num
    sign_name := get_sign_name sign_num
    sign_lord := get_sign_lord sign_num
    norm_degree := pymod longitude 30
    element := get_sign_element sign_num
    quality := get_sign_quality sign_num }

/- ## nakshatras.py -/

/-- `NAKSHATRAS` (nakshatras.py lines 11-39). -/
def NAKSHATRAS : List String :=
  ["Ashwini", "Bharani", "Krittika", "Rohini", "Mrigashira", "Ardra",
   "Punarvasu", "Pushya", "Ashlesha", "Magha", "Purva Phalguni",
   "Uttara Phalguni", "Hasta", "Chitra", "Swati", "Vishakha", "Anuradha",
   "Jyeshtha", "Mula", "Purva Ashadha", "Uttara Ashadha", "Shravana",
   "Dhanishta", "Shatabhisha", "Purva Bhadrapada", "Uttara Bhadrapada",
   "Revati"]

/-- `NAKSHATRA_LORDS` (nakshatras.py lines 43-71). -/
def NAKSHATRA_LORDS : List String :=
  ["Ketu", "Venus", "Sun", "Moon", "Mars", "Rahu", "Jupiter", "Saturn",
   "Mercury", "Ketu", "Venus", "Sun", "Moon", "Mars", "Rahu", "Jupiter",
   "Saturn", "Mercury", "Ketu", "Venus", "Sun", "Moon", "Mars", "Rahu",
   "Jupiter", "Saturn", "Mercury"]

/-- `NAKSHATRA_DEITIES` (nakshatras.py lines 74-102). -/
def NAKSHATRA_DEITIES : List String :=
  ["Ashwini Kumaras", "Yama", "Agni", "Brahma", "Soma", "Rudra", "Aditi",
   "Brihaspati", "Sarpa", "Pitris", "Bhaga", "Aryaman", "Savitar",
   "Tvashtar", "Vayu", "Indra-Agni", "Mitra", "Indra", "Nirriti", "Apas",
   "Vishve Devas", "Vishnu", "Vasus", "Varuna", "Aja Ekapada",
   "Ahir Budhnya", "Pushan"]

/-- `get_nakshatra_name` (nakshatras.py line 105). -/
def get_nakshatra_name (nakshatra_num : ℤ) : String :=
  NAKSHATRAS.getD (nakshatra_num % 27).toNat noStr

/-- `get_nakshatra_lord` (nakshatras.py line 118). -/
def get_nakshatra_lord (nakshatra_num : ℤ) : String :=
  NAKSHATRA_LORDS.getD (nakshatra_num % 27).toNat noStr

/-- `get_nakshatra_deity` (nakshatras.py line 131). -/
def get_nakshatra_deity (nakshatra_num : ℤ) : String :=
  NAKSHATRA_DEITIES.getD (nakshatra_num % 27).toNat noStr

/-- The dictionary returned by `longitude_to_nakshatra`. -/
structure NakshatraInfo where
  nakshatra_num : ℤ
  nakshatra_name : String
  nakshatra_lord : String
  deity : String
  pada : ℤ
  degree_in_nakshatra : ℚ
deriving Repr

/-- `longitude_to_nakshatra` (nakshatras.py lines 136-165). -/
def longitude_to_nakshatra (longitude : ℚ) : NakshatraInfo :=
  let nakshatra_span : ℚ := 360 / 27
  let nakshatra_num := (pyInt (longitude / nakshatra_span)) % 27
  let degree_in_nakshatra := pymod longitude nakshatra_span
  let pada_span := nakshatra_span / 4
  let pada := pyInt (degree_in_nakshatra / pada_span) + 1
  { nakshatra_num := nakshatra_num
    nakshatra_name := get_nakshatra_name nakshatra_num
    nakshatra_lord := get_nakshatra_lord nakshatra_num
    deity := get_nakshatra_deity nakshatra_num
    pada := pada
    degree_in_nakshatra := degree_in_nakshatra }

/- ## planetary.py -/

/-- `calculate_lahiri_ayanamsha` (planetary.py lines 51-76). -/
def calculate_lahiri_ayanamsha (jd : ℚ) : ℚ :=
  let jd_1950 : ℚ := 2433282.5
  let years_since_1950 := (jd - jd_1950) / 365.25
  23.85 + (50.26 / 3600) * years_since_1950

/-- `calculate_planet_speed` (planetary.py lines 79-110).  The two Skyfield
samples — the tropical longitude now and `interval_days` earlier — are the
ephemeris inputs `pos_now` and `pos_prev`. -/
def calculate_planet_speed (pos_now pos_prev interval_days : ℚ) : ℚ :=
  let speed := (pos_now - pos_prev) / interval_days
  if speed > 180 then speed - 360
  else if speed < -180 then speed + 360
  else speed

/-- One planet dictionary of the engine's output (routes.py lines 49-59). -/
structure Planet where
  name : String
  fullDegree : ℚ
  normDegree : ℚ
  speed : ℚ
  isRetro : Bool
  sign : String
  signLord : String
  nakshatra : String
  nakshatraLord : String
  house : ℤ
deriving Repr, Inhabited

/-- The tropical-to-sidereal conversion of planetary.py line 169. -/
def sidereal_longitude (tropical_long ayanamsha_value : ℚ) : ℚ :=
  pymod (tropical_long - ayanamsha_value) 360

/-- The loop body of `calculate_planet_positions` (planetary.py lines
159-191) for one body.  `tropical_long` is the ephemeris's apparent tropical
ecliptic longitude at the observer's instant; `pos_now` and `pos_prev` are
the two samples the speed computation reads from the ephemeris. -/
def planet_entry (planet_name : String) (tropical_long ayanamsha_value pos_now pos_prev : ℚ) :
    Planet :=
  let sidereal_long := sidereal_longitude tropical_long ayanamsha_value
  let sign_info := longitude_to_sign sidereal_long
  let nakshatra_info := longitude_to_nakshatra sidereal_long
  let speed := calculate_planet_speed pos_now pos_prev 1
  { name := planet_name
    fullDegree := pyRound6 sidereal_long
    normDegree := pyRound6 sign_info.norm_degree
    speed := pyRound6 speed
    isRetro := decide (speed < 0)
    sign := sign_info.sign_name
    signLord := sign_info.sign_lord
    nakshatra := nakshatra_info.nakshatra_name
    nakshatraLord := nakshatra_info.nakshatra_lord
    house := 0 }

/-- `calculate_rahu_ketu` (planetary.py lines 196-255). -/
def calculate_rahu_ketu (moon_position : Planet) : Planet × Planet :=
  let moon_long := moon_position.fullDegree
  let rahu_long := pymod (moon_long + 180) 360
  let ketu_long := moon_long
  let rahu_sign := longitude_to_sign rahu_long
  let rahu_nakshatra := longitude_to_nakshatra rahu_long
  let ketu_sign := longitude_to_sign ketu_long
  let ketu_nakshatra := longitude_to_nakshatra ketu_long
  let rahu : Planet :=
    { name := "Rahu"
      fullDegree := pyRound6 rahu_long
      normDegree := pyRound6 rahu_sign.norm_degree
      speed := -0.053
      isRetro := true
      sign := rahu_sign.sign_name
      signLord := rahu_sign.sign_lord
      nakshatra := rahu_nakshatra.nakshatra_name
      nakshatraLord := rahu_nakshatra.nakshatra_lord
      house := 0 }
  let ketu : Planet :=
    { name := "Ketu"
      fullDegree := pyRound6 ketu_long
      normDegree := pyRound6 ketu_sign.norm_degree
      speed := -0.053
      isRetro := true
      sign := ketu_sign.sign_name
      signLord := ketu_sign.sign_lord
      nakshatra := ketu_nakshatra.nakshatra_name
      nakshatraLord := ketu_nakshatra.nakshatra_lord
      house := 0 }
  (rahu, ketu)

/- ## houses.py -/

/-- `datetime_to_julian_date` (houses.py lines 14-49), on the civil UTC
fields of the datetime. -/
def datetime_to_julian_date (year month day hour minute second : ℤ) : ℚ :=
  let year2 := if month ≤ 2 then year - 1 else year
  let month2 := if month ≤ 2 then month + 12 else month
  let a := pyInt ((year2 : ℚ) / 100)
  let b := 2 - a + pyInt ((a : ℚ) / 4)
  let jd : ℚ :=
    ((pyInt (365.25 * ((year2 : ℚ) + 4716)) : ℚ) +
      (pyInt (30.6001 * ((month2 : ℚ) + 1)) : ℚ) + (day : ℚ) + (b : ℚ)) - 1524.5
  let time_fraction := ((hour : ℚ) + (minute : ℚ) / 60 + (second : ℚ) / 3600) / 24
  jd + time_fraction

/-- The final normalisation steps of `calculate_ascendant` (houses.py lines
150-159).  `asc_tropical_deg` stands for `degrees(atan2(numerator,
denominator))`, the real-valued trigonometric core that is not
rational-representable; it enters as an explicit parameter. -/
def ascendant_from_tropical (asc_tropical_deg ayanamsha : ℚ) : ℚ :=
  let asc_tropical := pymod asc_tropical_deg 360
  pymod (asc_tropical - ayanamsha) 360

/-- The final normalisation steps of `calculate_midheaven` (houses.py lines
196-202), with `mc_tropical_deg` standing for `degrees(atan2(tan(RAMC),
cos(ε)))`. -/
def midheaven_from_tropical (mc_tropical_deg ayanamsha : ℚ) : ℚ :=
  let mc_tropical := pymod mc_tropical_deg 360
  pymod (mc_tropical - ayanamsha) 360

/-- One house dictionary (routes.py lines 62-65). -/
structure House where
  house : ℤ
  sign : String
  degree : ℚ
deriving Repr, Inhabited

/-- `calculate_houses_whole_sign` (houses.py lines 205-237). -/
def calculate_houses_whole_sign (ascendant : ℚ) : List House :=
  let asc_sign_num := pyInt (ascendant / 30)
  (List.range 12).map fun (k : ℕ) =>
    let house_num : ℤ := (k : ℤ) + 1
    let sign_num := (asc_sign_num + house_num - 1) % 12
    { house := house_num
      sign := get_sign_name sign_num
      degree := pyRound6 ((sign_num : ℚ) * 30) }

/-- The `house_cusps` dictionary of `calculate_houses_placidus` (houses.py
lines 265-287): the cusp longitude of house `n`. -/
def placidus_cusp (ascendant mc : ℚ) (n : ℤ) : ℚ :=
  let house_1 := ascendant
  let house_10 := mc
  let house_7 := pymod (ascendant + 180) 360
  let house_4 := pymod (mc + 180) 360
  if n = 1 then house_1
  else if n = 2 then pymod (house_1 + (house_4 - house_1) / 3) 360
  else if n = 3 then pymod (house_1 + 2 * (house_4 - house_1) / 3) 360
  else if n = 4 then house_4
  else if n = 5 then pymod (house_4 + (house_7 - house_4) / 3) 360
  else if n = 6 then pymod (house_4 + 2 * (house_7 - house_4) / 3) 360
  else if n = 7 then house_7
  else if n = 8 then pymod (house_7 + (house_10 - house_7) / 3) 360
  else if n = 9 then pymod (house_7 + 2 * (house_10 - house_7) / 3) 360
  else if n = 10 then house_10
  else if n = 11 then pymod (house_10 + (house_1 - house_10) / 3) 360
  else pymod (house_10 + 2 * (house_1 - house_10) / 3) 360

/-- `calculate_houses_placidus` (houses.py lines 240-300).  `latitude` is
accepted and unused, as in the source. -/
def calculate_houses_placidus (ascendant mc latitude : ℚ) : List House :=
  (List.range 12).map fun (k : ℕ) =>
    let house_num : ℤ := (k : ℤ) + 1
    let cusp := placidus_cusp ascendant mc house_num
    let sign_num := (pyInt (cusp / 30)) % 12
    { house := house_num
      sign := get_sign_name sign_num
      degree := pyRound6 cusp }

/-- The whole-sign branch of `assign_planets_to_houses` (houses.py lines
322-326). -/
def whole_sign_house (planet_long : ℚ) (houses : List House) : ℤ :=
  let planet_sign := pyInt (planet_long / 30)
  let first_house_sign := pyInt ((houses.headD default).degree / 30)
  ((planet_sign - first_house_sign) % 12) + 1

/-- The interval-membership test of the Placidus branch of
`assign_planets_to_houses` (houses.py lines 330-341). -/
def placidus_in_house (planet_long : ℚ) (houses : List House) (i : ℕ) : Bool :=
  let cusp_this := (houses.getD i default).degree
  let cusp_next := (houses.getD ((i + 1) % 12) default).degree
  if cusp_next < cusp_this then
    decide (planet_long ≥ cusp_this) || decide (planet_long < cusp_next)
  else
    decide (cusp_this ≤ planet_long) && decide (planet_long < cusp_next)

/-- The Placidus branch of `assign_planets_to_houses` (houses.py lines
328-343): first matching interval wins, default house 1. -/
def placidus_house (planet_long : ℚ) (houses : List House) : ℤ :=
  match (List.range 12).find? (placidus_in_house planet_long houses) with
  | some i => (i : ℤ) + 1
  | none => 1

/-- `assign_planets_to_houses` (houses.py lines 303-347).  The Python code
mutates each planet dict's `house` key in place and returns the same list;
the embedding maps the corresponding pure record update over the list. -/
def assign_planets_to_houses (planets : List Planet) (houses : List House)
    (house_system : String) : List Planet :=
  planets.map fun planet =>
    let house :=
      if house_system = "whole_sign" then whole_sign_house planet.fullDegree houses
      else placidus_house planet.fullDegree houses
    { planet with house := house }

/- ## routes.py -/

/-- `AstrologyRequest` (routes.py lines 33-45): the request fields. -/
structure AstrologyRequest where
  year : ℤ
  month : ℤ
  date : ℤ
  hours : ℤ
  minutes : ℤ
  seconds : ℤ
  latitude : ℚ
  longitude : ℚ
  timezone : ℚ
  observation_point : String
  ayanamsha : String
deriving Repr

/-- The pydantic validation of `AstrologyRequest` (routes.py lines 35-45):
a request passing these constraints is accepted and computed. -/
def request_valid (r : AstrologyRequest) : Prop :=
  1800 ≤ r.year ∧ r.year ≤ 2200 ∧
  1 ≤ r.month ∧ r.month ≤ 12 ∧
  1 ≤ r.date ∧ r.date ≤ 31 ∧
  0 ≤ r.hours ∧ r.hours ≤ 23 ∧
  0 ≤ r.minutes ∧ r.minutes ≤ 59 ∧
  0 ≤ r.seconds ∧ r.seconds ≤ 59 ∧
  -90 ≤ r.latitude ∧ r.latitude ≤ 90 ∧
  -180 ≤ r.longitude ∧ r.longitude ≤ 180 ∧
  -12 ≤ r.timezone ∧ r.timezone ≤ 14 ∧
  (r.observation_point = "topocentric" ∨ r.observation_point = "geocentric") ∧
  (r.ayanamsha = "lahiri" ∨ r.ayanamsha = "raman" ∨
    r.ayanamsha = "krishnamurti" ∨ r.ayanamsha = "thirukanitham")

/- ## Definitions taken from the spec's words (for refinement comparisons) -/

/-- The spec's speed formula, stated in its order of operations: correct the
raw one-day delta by ±360 when it exceeds 180° in magnitude, then divide by
the 1-day interval. -/
def spec_speed (pos_now pos_prev : ℚ) : ℚ :=
  let delta := pos_now - pos_prev
  let corrected :=
    if delta > 180 then delta - 360
    else if delta < -180 then delta + 360
    else delta
  corrected / 1

/-- The spec's reading of intermediate Placidus cusp placement: the `k`-th
trisection point (k = 1, 2) of the forward angular arc from the bounding
cusp `c_start` to the bounding cusp `c_end`. -/
def spec_trisection (c_start c_end k : ℚ) : ℚ :=
  pymod (c_start + k * (pymod (c_end - c_start) 360) / 3) 360

/-- Modelled from the spec: the EphemerisAdapter (Skyfield, an external
collaborator outside src/) supplies the Sun's apparent tropical longitudes.
Section 4.3's premise that apparent solar motion is always prograde is
modelled as: over the one-day speed-sampling interval the Sun's tropical
longitude advances by some angle `m` with `0 < m < 180`, both samples being
normalised to `[0, 360)` as Skyfield reports them. -/
def sun_motion (pos_prev pos_now m : ℚ) : Prop :=
  0 ≤ pos_prev ∧ pos_prev < 360 ∧ 0 < m ∧ m < 180 ∧
  pos_now = pymod (pos_prev + m) 360

/- ## Arithmetic helper lemmas -/

theorem floor_q {x : ℚ} {n : ℤ} (h1 : (n : ℚ) ≤ x) (h2 : x < n + 1) : ⌊x⌋ = n := by
  rw [Int.floor_eq_iff]
  exact ⟨h1, by exact_mod_cast h2⟩

theorem pyInt_eq_floor {x : ℚ} (h : 0 ≤ x) : pyInt x = ⌊x⌋ := by
  simp [pyInt, h]

theorem pyInt_intCast (k : ℤ) : pyInt (k : ℚ) = k := by
  unfold pyInt
  split
  · exact Int.floor_intCast k
  · rw [show (-(k : ℚ)) = ((-k : ℤ) : ℚ) by push_cast; ring, Int.floor_intCast]
    omega

theorem pymod_mul_fract (x : ℚ) {y : ℚ} (hy : y ≠ 0) :
    pymod x y = y * Int.fract (x / y) := by
  unfold pymod Int.fract
  field_simp

theorem pymod_nonneg (x : ℚ) {y : ℚ} (hy : 0 < y) : 0 ≤ pymod x y := by
  rw [pymod_mul_fract x hy.ne']
  exact mul_nonneg hy.le (Int.fract_nonneg _)

theorem pymod_lt (x : ℚ) {y : ℚ} (hy : 0 < y) : pymod x y < y := by
  rw [pymod_mul_fract x hy.ne']
  calc y * Int.fract (x / y) < y * 1 := by
        exact mul_lt_mul_of_pos_left (Int.fract_lt_one _) hy
    _ = y := mul_one y

theorem pymod_eq_self {x y : ℚ} (h0 : 0 ≤ x) (hy : 0 < y) (hxy : x < y) :
    pymod x y = x := by
  have hfl : ⌊x / y⌋ = 0 := by
    rw [Int.floor_eq_zero_iff]
    exact ⟨div_nonneg h0 hy.le, (div_lt_one hy).mpr hxy⟩
  simp [pymod, hfl]

theorem pymod_add_mul_int (x : ℚ) {y : ℚ} (hy : y ≠ 0) (k : ℤ) :
    pymod (x + y * k) y = pymod x y := by
  unfold pymod
  have hdiv : (x + y * k) / y = x / y + k := by
    field_simp
    ring
  rw [hdiv, Int.floor_add_int]
  push_cast
  ring

theorem pymod_def (x : ℚ) : pymod x 360 = x - 360 * (⌊x / 360⌋ : ℚ) := rfl

theorem roundHalfEven_intCast (k : ℤ) : roundHalfEven (k : ℚ) = k := by
  unfold roundHalfEven
  simp [Int.floor_intCast]

theorem roundHalfEven_cases (y : ℚ) :
    roundHalfEven y = ⌊y⌋ ∨ roundHalfEven y = ⌊y⌋ + 1 := by
  unfold roundHalfEven
  split_ifs <;> simp

theorem sixdec_intCast (k : ℤ) : sixdec (k : ℚ) :=
  ⟨k * 1000000, by push_cast; ring⟩

theorem sixdec_add_int {x : ℚ} (h : sixdec x) (n : ℤ) : sixdec (x + (n : ℚ)) := by
  obtain ⟨k, hk⟩ := h
  exact ⟨k + n * 1000000, by push_cast [← hk]; ring⟩

theorem sixdec_pymod360 {x : ℚ} (h : sixdec x) : sixdec (pymod x 360) := by
  obtain ⟨k, hk⟩ := h
  refine ⟨k - 360000000 * ⌊x / 360⌋, ?_⟩
  rw [pymod_def]
  push_cast [← hk]
  ring

theorem sixdec_mul_int (k : ℤ) (c : ℤ) : sixdec ((k : ℚ) * (c : ℚ)) := by
  exact ⟨k * c * 1000000, by push_cast; ring⟩

theorem pyRound6_eq_self {x : ℚ} (h : sixdec x) : pyRound6 x = x := by
  obtain ⟨k, hk⟩ := h
  unfold pyRound6
  rw [hk, roundHalfEven_intCast]
  have : x = (k : ℚ) / 1000000 := by
    rw [← hk]; ring
  rw [← this]

theorem pyRound6_intCast (k : ℤ) : pyRound6 (k : ℚ) = k :=
  pyRound6_eq_self (sixdec_intCast k)

theorem pyRound6_bounds {x : ℚ} (h0 : 0 ≤ x) (h1 : x < 360) :
    0 ≤ pyRound6 x ∧ pyRound6 x ≤ 360 := by
  have hy0 : (0 : ℚ) ≤ x * 1000000 := by positivity
  have hfl0 : (0 : ℚ) ≤ (⌊x * 1000000⌋ : ℚ) := by
    exact_mod_cast Int.floor_nonneg.mpr hy0
  have hup : ⌊x * 1000000⌋ < 360000000 := by
    rw [Int.floor_lt]
    push_cast
    linarith
  have hupq : (⌊x * 1000000⌋ : ℚ) + 1 ≤ 360000000 := by
    exact_mod_cast hup
  rcases roundHalfEven_cases (x * 1000000) with h | h <;>
      unfold pyRound6 <;> rw [h] <;> push_cast <;> constructor
  · exact div_nonneg hfl0 (by norm_num)
  · rw [div_le_iff₀ (by norm_num : (0:ℚ) < 1000000)]
    linarith
  · exact div_nonneg (by linarith) (by norm_num)
  · rw [div_le_iff₀ (by norm_num : (0:ℚ) < 1000000)]
    linarith

theorem getD_map_range {α : Type} [Inhabited α] {n : ℕ} (f : ℕ → α) {k : ℕ}
    (hk : k < n) : (((List.range n).map f).getD k default) = f k := by
  have hlen : (((List.range n).map f)).length = n := by simp
  rw [List.getD_eq_getElem _ _ (by rw [hlen]; exact hk)]
  simp

/- ## Claim theorems -/

/-- C1: for every longitude `L` in `[0, 360)` the computed sign index is
`⌊L/30⌋ % 12`, the nakshatra index is `⌊L/(360/27)⌋ % 27`, and the pada is
`⌊(L % (360/27)) / (360/108)⌋ + 1`, which lies in `{1, 2, 3, 4}`; in
particular longitude 0 maps to Aries / Ashwini / pada 1, longitude 30 to
Taurus / Krittika, longitude 120 to Leo / Magha, and longitude 270 to
Capricorn / Uttara Ashadha. -/
theorem sign_nakshatra_pada_indexing (L : ℚ) (h0 : 0 ≤ L) (h1 : L < 360) :
    (longitude_to_sign L).sign_num = ⌊L / 30⌋ % 12 ∧
    (longitude_to_nakshatra L).nakshatra_num = ⌊L / (360 / 27)⌋ % 27 ∧
    (longitude_to_nakshatra L).pada = ⌊(pymod L (360 / 27)) / (360 / 108)⌋ + 1 ∧
    (1 ≤ (longitude_to_nakshatra L).pada ∧ (longitude_to_nakshatra L).pada ≤ 4) ∧
    (longitude_to_sign 0).sign_name = "Aries" ∧
    (longitude_to_nakshatra 0).nakshatra_name = "Ashwini" ∧
    (longitude_to_nakshatra 0).pada = 1 ∧
    (longitude_to_sign 30).sign_name = "Taurus" ∧
    (longitude_to_nakshatra 30).nakshatra_name = "Krittika" ∧
    (longitude_to_sign 120).sign_name = "Leo" ∧
    (longitude_to_nakshatra 120).nakshatra_name = "Magha" ∧
    (longitude_to_sign 270).sign_name = "Capricorn" ∧
    (longitude_to_nakshatra 270).nakshatra_name = "Uttara Ashadha" := by
  have hspan : (0 : ℚ) < 360 / 27 := by norm_num
  have hpada_arg : 0 ≤ pymod L (360 / 27) / ((360 / 27) / 4) :=
    div_nonneg (pymod_nonneg L hspan) (by norm_num)
  have hpada_lt : pymod L (360 / 27) / ((360 / 27) / 4) < 4 := by
    have := pymod_lt L hspan
    rw [div_lt_iff₀ (by norm_num : (0:ℚ) < (360 / 27) / 4)]
    linarith
  have e0 : pyInt ((0:ℚ) / 30) = 0 := by
    rw [pyInt_eq_floor (by norm_num)]
    exact floor_q (by norm_num) (by norm_num)
  have e30 : pyInt ((30:ℚ) / 30) = 1 := by
    rw [pyInt_eq_floor (by norm_num)]
    exact floor_q (by norm_num) (by norm_num)
  have e120 : pyInt ((120:ℚ) / 30) = 4 := by
    rw [pyInt_eq_floor (by norm_num)]
    exact floor_q (by norm_num) (by norm_num)
  have e270 : pyInt ((270:ℚ) / 30) = 9 := by
    rw [pyInt_eq_floor (by norm_num)]
    exact floor_q (by norm_num) (by norm_num)
  have n0 : pyInt ((0:ℚ) / (360 / 27)) = 0 := by
    rw [pyInt_eq_floor (by norm_num)]
    exact floor_q (by norm_num) (by norm_num)
  have n30 : pyInt ((30:ℚ) / (360 / 27)) = 2 := by
    rw [pyInt_eq_floor (by norm_num)]
    exact floor_q (by norm_num) (by norm_num)
  have n120 : pyInt ((120:ℚ) / (360 / 27)) = 9 := by
    rw [pyInt_eq_floor (by norm_num)]
    exact floor_q (by norm_num) (by norm_num)
  have n270 : pyInt ((270:ℚ) / (360 / 27)) = 20 := by
    rw [pyInt_eq_floor (by norm_num)]
    exact floor_q (by norm_num) (by norm_num)
  have p0 : pymod (0:ℚ) (360 / 27) = 0 := pymod_eq_self le_rfl hspan hspan
  have pada0 : pyInt (pymod (0:ℚ) (360 / 27) / ((360 / 27) / 4)) = 0 := by
    rw [p0, pyInt_eq_floor (by norm_num)]
    exact floor_q (by norm_num) (by norm_num)
  refine ⟨?_, ?_, ?_, ⟨?_, ?_⟩, ?_, ?_, ?_, ?_, ?_, ?_, ?_, ?_, ?_⟩
  · simp only [longitude_to_sign]
    rw [pyInt_eq_floor (div_nonneg h0 (by norm_num))]
  · simp only [longitude_to_nakshatra]
    rw [pyInt_eq_floor (div_nonneg h0 hspan.le)]
  · simp only [longitude_to_nakshatra]
    rw [pyInt_eq_floor hpada_arg]
    norm_num
  · simp only [longitude_to_nakshatra]
    rw [pyInt_eq_floor hpada_arg]
    have := Int.floor_nonneg.mpr hpada_arg
    omega
  · simp only [longitude_to_nakshatra]
    rw [pyInt_eq_floor hpada_arg]
    have : ⌊pymod L (360 / 27) / ((360 / 27) / 4)⌋ < 4 := by
      rw [Int.floor_lt]
      exact_mod_cast hpada_lt
    omega
  · simp only [longitude_to_sign]
    rw [e0]
    rfl
  · simp only [longitude_to_nakshatra]
    rw [n0]
    rfl
  · simp only [longitude_to_nakshatra]
    rw [pada0]
    norm_num
  · simp only [longitude_to_sign]
    rw [e30]
    rfl
  · simp only [longitude_to_nakshatra]
    rw [n30]
    rfl
  · simp only [longitude_to_sign]
    rw [e120]
    rfl
  · simp only [longitude_to_nakshatra]
    rw [n120]
    rfl
  · simp only [longitude_to_sign]
    rw [e270]
    rfl
  · simp only [longitude_to_nakshatra]
    rw [n270]
    rfl

/-- Witness for C1 at the concrete longitude 120. -/
theorem sign_nakshatra_pada_indexing_witness :
    1 ≤ (longitude_to_nakshatra 120).pada ∧ (longitude_to_nakshatra 120).pada ≤ 4 :=
  (sign_nakshatra_pada_indexing 120 (by norm_num) (by norm_num)).2.2.2.1

/-- C4: the computed angular speed equals the spec's formula — the signed
one-day delta of the tropical longitude, with a ±360° correction applied
exactly when the raw delta exceeds 180° in magnitude, divided by the 1-day
interval — and a body's `isRetro` flag is true iff that computed speed is
negative. -/
theorem speed_formula_and_retro (pos_now pos_prev tropical_long ayanamsha_value : ℚ)
    (planet_name : String) :
    calculate_planet_speed pos_now pos_prev 1 = spec_speed pos_now pos_prev ∧
    ((planet_entry planet_name tropical_long ayanamsha_value pos_now pos_prev).isRetro
      = true ↔ calculate_planet_speed pos_now pos_prev 1 < 0) := by
  constructor
  · unfold calculate_planet_speed spec_speed
    norm_num
  · simp [planet_entry]

/-- C7: the Lahiri ayanamsha is strictly increasing in Julian Date, equals
23.85° at JD 2433282.5 (1950-01-01 00:00 UT), and its value at the Julian
Date of 2000-01-01 00:00 UTC lies in [24, 25]. -/
theorem lahiri_monotone_and_anchors (t1 t2 : ℚ) (h : t1 < t2) :
    calculate_lahiri_ayanamsha t1 < calculate_lahiri_ayanamsha t2 ∧
    calculate_lahiri_ayanamsha 2433282.5 = 23.85 ∧
    24 ≤ calculate_lahiri_ayanamsha (datetime_to_julian_date 2000 1 1 0 0 0) ∧
    calculate_lahiri_ayanamsha (datetime_to_julian_date 2000 1 1 0 0 0) ≤ 25 := by
  have hjd : datetime_to_julian_date 2000 1 1 0 0 0 = 2451544.5 := by
    have f1 : pyInt ((1999:ℚ) / 100) = 19 := by
      rw [pyInt_eq_floor (by norm_num)]
      exact floor_q (by norm_num) (by norm_num)
    have f2 : pyInt ((19:ℚ) / 4) = 4 := by
      rw [pyInt_eq_floor (by norm_num)]
      exact floor_q (by norm_num) (by norm_num)
    have f3 : pyInt ((365.25:ℚ) * (1999 + 4716)) = 2452653 := by
      rw [pyInt_eq_floor (by norm_num)]
      exact floor_q (by norm_num) (by norm_num)
    have f4 : pyInt ((30.6001:ℚ) * (13 + 1)) = 428 := by
      rw [pyInt_eq_floor (by norm_num)]
      exact floor_q (by norm_num) (by norm_num)
    have f3n : pyInt ((9810615:ℚ) / 4) = 2452653 := by
      rw [pyInt_eq_floor (by norm_num)]
      exact floor_q (by norm_num) (by norm_num)
    have f4n : pyInt ((2142007:ℚ) / 5000) = 428 := by
      rw [pyInt_eq_floor (by norm_num)]
      exact floor_q (by norm_num) (by norm_num)
    simp only [datetime_to_julian_date]
    norm_num [f1, f2, f3, f4, f3n, f4n]
  refine ⟨?_, by norm_num [calculate_lahiri_ayanamsha], ?_, ?_⟩
  · unfold calculate_lahiri_ayanamsha
    have hd : (t1 - 2433282.5) / 365.25 < (t2 - 2433282.5) / 365.25 := by
      apply div_lt_div_of_pos_right (by linarith) (by norm_num)
    nlinarith
  · rw [hjd]
    norm_num [calculate_lahiri_ayanamsha]
  · rw [hjd]
    norm_num [calculate_lahiri_ayanamsha]

/-- Witness for C7 at the concrete Julian Dates 2433282.5 < 2451544.5. -/
theorem lahiri_monotone_and_anchors_witness :
    calculate_lahiri_ayanamsha 2433282.5 < calculate_lahiri_ayanamsha 2451544.5 :=
  (lahiri_monotone_and_anchors 2433282.5 2451544.5 (by norm_num)).1

/-- C2 (amended): the unrounded sidereal longitude, the ascendant, the
midheaven and every Whole Sign cusp degree lie in `[0, 360)` for all inputs;
a planet's reported `fullDegree`, which is the six-decimal rounding of the
sidereal longitude, lies in `[0, 360]` (it can equal 360, see the
counterexample). -/
theorem computed_longitudes_in_range :
    (∀ tropical_long ayanamsha_value : ℚ,
      0 ≤ sidereal_longitude tropical_long ayanamsha_value ∧
      sidereal_longitude tropical_long ayanamsha_value < 360) ∧
    (∀ (planet_name : String) (tropical_long ayanamsha_value pos_now pos_prev : ℚ),
      0 ≤ (planet_entry planet_name tropical_long ayanamsha_value
          pos_now pos_prev).fullDegree ∧
      (planet_entry planet_name tropical_long ayanamsha_value
          pos_now pos_prev).fullDegree ≤ 360) ∧
    (∀ asc_tropical_deg ayanamsha : ℚ,
      0 ≤ ascendant_from_tropical asc_tropical_deg ayanamsha ∧
      ascendant_from_tropical asc_tropical_deg ayanamsha < 360) ∧
    (∀ mc_tropical_deg ayanamsha : ℚ,
      0 ≤ midheaven_from_tropical mc_tropical_deg ayanamsha ∧
      midheaven_from_tropical mc_tropical_deg ayanamsha < 360) ∧
    (∀ (ascendant : ℚ) (k : Fin 12),
      0 ≤ ((calculate_houses_whole_sign ascendant).getD k default).degree ∧
      ((calculate_houses_whole_sign ascendant).getD k default).degree < 360) := by
  have h360 : (0 : ℚ) < 360 := by norm_num
  refine ⟨?_, ?_, ?_, ?_, ?_⟩
  · intro t a
    exact ⟨pymod_nonneg _ h360, pymod_lt _ h360⟩
  · intro name t a pn pp
    simp only [planet_entry]
    exact pyRound6_bounds (pymod_nonneg _ h360) (pymod_lt _ h360)
  · intro t a
    exact ⟨pymod_nonneg _ h360, pymod_lt _ h360⟩
  · intro t a
    exact ⟨pymod_nonneg _ h360, pymod_lt _ h360⟩
  · intro asc k
    simp only [calculate_houses_whole_sign]
    rw [getD_map_range _ k.isLt]
    have hs0 : 0 ≤ (pyInt (asc / 30) + ((k : ℤ) + 1) - 1) % 12 :=
      Int.emod_nonneg _ (by norm_num)
    have hs1 : (pyInt (asc / 30) + ((k : ℤ) + 1) - 1) % 12 < 12 :=
      Int.emod_lt_of_pos _ (by norm_num)
    have hcast : (((pyInt (asc / 30) + ((k : ℤ) + 1) - 1) % 12 : ℤ) : ℚ) * 30
        = (((pyInt (asc / 30) + ((k : ℤ) + 1) - 1) % 12 * 30 : ℤ) : ℚ) := by
      push_cast
      ring
    constructor
    · show (0:ℚ) ≤ pyRound6 _
      rw [hcast, pyRound6_intCast]
      exact_mod_cast mul_nonneg hs0 (by norm_num)
    · show pyRound6 _ < 360
      rw [hcast, pyRound6_intCast]
      have : (pyInt (asc / 30) + ((k : ℤ) + 1) - 1) % 12 * 30 ≤ 330 := by omega
      calc (((pyInt (asc / 30) + ((k : ℤ) + 1) - 1) % 12 * 30 : ℤ) : ℚ)
          ≤ 330 := by exact_mod_cast this
        _ < 360 := by norm_num

/-- Counterexample for C2 as stated: with the ayanamsha of JD 2433282.5
(23.85°) and an ephemeris tropical longitude of 383.8499999°, the unrounded
sidereal longitude is 359.9999999°, whose six-decimal rounding — the
reported `fullDegree` — is exactly 360, outside `[0, 360)`. -/
theorem fullDegree_can_reach_360 :
    ¬ ((planet_entry "Sun" 383.8499999 (calculate_lahiri_ayanamsha 2433282.5)
        3 2).fullDegree < 360) := by
  have hay : calculate_lahiri_ayanamsha 2433282.5 = 23.85 := by
    norm_num [calculate_lahiri_ayanamsha]
  have hsid : sidereal_longitude 383.8499999 23.85 = 359.9999999 := by
    unfold sidereal_longitude
    rw [show (383.8499999 : ℚ) - 23.85 = 359.9999999 by norm_num]
    exact pymod_eq_self (by norm_num) (by norm_num) (by norm_num)
  have hfl : ⌊(359.9999999 : ℚ) * 1000000⌋ = 359999999 :=
    floor_q (by norm_num) (by norm_num)
  have hround : pyRound6 (359.9999999 : ℚ) = 360 := by
    unfold pyRound6 roundHalfEven
    rw [hfl]
    norm_num
  rw [hay]
  simp only [planet_entry, hsid, hround]
  norm_num

/-- The `k`-th record (0-based) of the Whole Sign house list. -/
theorem whole_sign_getD (ascendant : ℚ) (k : ℕ) (hk : k < 12) :
    (calculate_houses_whole_sign ascendant).getD k default =
      { house := (k : ℤ) + 1
        sign := get_sign_name ((pyInt (ascendant / 30) + ((k : ℤ) + 1) - 1) % 12)
        degree := pyRound6
          ((((pyInt (ascendant / 30) + ((k : ℤ) + 1) - 1) % 12 : ℤ) : ℚ) * 30) } := by
  simp only [calculate_houses_whole_sign]
  rw [getD_map_range _ hk]

/-- The Whole Sign house list is nonempty, so `headD` is its entry 0. -/
theorem whole_sign_headD (ascendant : ℚ) :
    (calculate_houses_whole_sign ascendant).headD default
      = (calculate_houses_whole_sign ascendant).getD 0 default := by
  have h12 : List.range 12 = [0, 1, 2, 3, 4, 5, 6, 7, 8, 9, 10, 11] := by rfl
  simp only [calculate_houses_whole_sign, h12, List.map_cons]
  rfl

/-- C3: for an ascendant in `[0, 360)` the Whole Sign strategy returns 12
houses numbered 1..12 in order; house `n`'s cusp is the 30°-multiple start
of the sign `(n−1)` signs after the ascendant's sign, so house 1's cusp sign
is the sign containing the ascendant; and whole-sign house assignment gives
`((bodySignIndex − firstHouseSignIndex) mod 12) + 1`. -/
theorem whole_sign_houses_correct (ascendant : ℚ) (h0 : 0 ≤ ascendant)
    (h1 : ascendant < 360) :
    (calculate_houses_whole_sign ascendant).length = 12 ∧
    (∀ k : Fin 12,
      ((calculate_houses_whole_sign ascendant).getD k default).house = (k : ℤ) + 1) ∧
    (∀ k : Fin 12,
      ((calculate_houses_whole_sign ascendant).getD k default).degree
        = (((⌊ascendant / 30⌋ + (k : ℤ)) % 12 * 30 : ℤ) : ℚ)) ∧
    (∀ k : Fin 12,
      ((calculate_houses_whole_sign ascendant).getD k default).sign
        = get_sign_name ((⌊ascendant / 30⌋ + (k : ℤ)) % 12)) ∧
    ((calculate_houses_whole_sign ascendant).getD 0 default).sign
      = (longitude_to_sign ascendant).sign_name ∧
    (∀ planet_long : ℚ, 0 ≤ planet_long → planet_long < 360 →
      whole_sign_house planet_long (calculate_houses_whole_sign ascendant)
        = ((⌊planet_long / 30⌋ - ⌊ascendant / 30⌋) % 12) + 1) := by
  have hfloor : pyInt (ascendant / 30) = ⌊ascendant / 30⌋ :=
    pyInt_eq_floor (div_nonneg h0 (by norm_num))
  have hsign0 : 0 ≤ ⌊ascendant / 30⌋ :=
    Int.floor_nonneg.mpr (div_nonneg h0 (by norm_num))
  have hsign1 : ⌊ascendant / 30⌋ < 12 := by
    rw [Int.floor_lt, div_lt_iff₀ (by norm_num : (0:ℚ) < 30)]
    push_cast
    linarith
  have harg : ∀ k : ℤ, pyInt (ascendant / 30) + (k + 1) - 1
      = ⌊ascendant / 30⌋ + k := by
    intro k
    rw [hfloor]
    ring
  have hcast : ∀ s : ℤ, ((s : ℚ) * 30) = ((s * 30 : ℤ) : ℚ) := by
    intro s
    push_cast
    ring
  have hdeg0 : ((calculate_houses_whole_sign ascendant).getD 0 default).degree
      = ((⌊ascendant / 30⌋ * 30 : ℤ) : ℚ) := by
    rw [whole_sign_getD _ 0 (by norm_num)]
    show pyRound6 _ = _
    rw [show ((0:ℕ):ℤ) = 0 by norm_num, harg 0, add_zero,
      Int.emod_eq_of_lt hsign0 hsign1, hcast, pyRound6_intCast]
  refine ⟨by simp [calculate_houses_whole_sign], ?_, ?_, ?_, ?_, ?_⟩
  · intro k
    rw [whole_sign_getD _ k k.isLt]
  · intro k
    rw [whole_sign_getD _ k k.isLt]
    show pyRound6 _ = _
    rw [harg (k : ℤ), hcast, pyRound6_intCast]
  · intro k
    rw [whole_sign_getD _ k k.isLt]
    show get_sign_name _ = _
    rw [harg (k : ℤ)]
  · rw [whole_sign_getD _ 0 (by norm_num)]
    simp only [longitude_to_sign]
    show get_sign_name _ = get_sign_name _
    rw [show ((0:ℕ):ℤ) = 0 by norm_num, harg 0, add_zero, hfloor]
  · intro planet_long hp0 hp1
    have hpfloor : pyInt (planet_long / 30) = ⌊planet_long / 30⌋ :=
      pyInt_eq_floor (div_nonneg hp0 (by norm_num))
    simp only [whole_sign_house, whole_sign_headD, hdeg0]
    rw [show ((⌊ascendant / 30⌋ * 30 : ℤ) : ℚ) / 30 = ((⌊ascendant / 30⌋ : ℤ) : ℚ) by
      push_cast; ring, pyInt_intCast, hpfloor]

/-- Witness for C3 at the concrete ascendant 95°. -/
theorem whole_sign_houses_correct_witness :
    (calculate_houses_whole_sign 95).length = 12 :=
  (whole_sign_houses_correct 95 (by norm_num) (by norm_num)).1

/-- C5: under the spec-modelled premise that the Sun's tropical longitude
advances by `0 < m < 180` degrees over the sampling day, the computed speed
is positive (hence non-negative) and the Sun's `isRetro` flag is false. -/
theorem sun_never_retrograde (pos_prev pos_now m tropical_long ayanamsha_value : ℚ)
    (h : sun_motion pos_prev pos_now m) :
    0 < calculate_planet_speed pos_now pos_prev 1 ∧
    (planet_entry "Sun" tropical_long ayanamsha_value pos_now pos_prev).isRetro
      = false := by
  obtain ⟨hp0, hp1, hm0, hm1, hnow⟩ := h
  have hspeed : calculate_planet_speed pos_now pos_prev 1 = m := by
    rcases lt_or_le (pos_prev + m) 360 with hc | hc
    · have hpn : pos_now = pos_prev + m := by
        rw [hnow, pymod_eq_self (by linarith) (by norm_num) hc]
      have hd : (pos_now - pos_prev) / 1 = m := by
        rw [hpn]
        ring
      simp only [calculate_planet_speed, hd]
      rw [if_neg (by linarith), if_neg (by linarith)]
    · have hfl : ⌊(pos_prev + m) / 360⌋ = 1 := by
        apply floor_q
        · rw [le_div_iff₀ (by norm_num : (0:ℚ) < 360)]
          push_cast
          linarith
        · rw [div_lt_iff₀ (by norm_num : (0:ℚ) < 360)]
          push_cast
          linarith
      have hpn : pos_now = pos_prev + m - 360 := by
        rw [hnow, pymod_def, hfl]
        push_cast
        ring
      have hd : (pos_now - pos_prev) / 1 = m - 360 := by
        rw [hpn]
        ring
      simp only [calculate_planet_speed, hd]
      rw [if_neg (by linarith), if_pos (by linarith)]
      ring
  refine ⟨by rw [hspeed]; exact hm0, ?_⟩
  simp only [planet_entry]
  exact decide_eq_false (by rw [hspeed]; linarith)

/-- Witness for C5: the Sun crossing 0° Aries, moving from 359.5° to 0.5°. -/
theorem sun_never_retrograde_witness :
    0 < calculate_planet_speed 0.5 359.5 1 ∧
    (planet_entry "Sun" 0 0 0.5 359.5).isRetro = false :=
  sun_never_retrograde 359.5 0.5 1 0 0
    ⟨by norm_num, by norm_num, by norm_num, by norm_num, by
      have hfl : ⌊(360.5 : ℚ) / 360⌋ = 1 := floor_q (by norm_num) (by norm_num)
      rw [show (359.5 : ℚ) + 1 = 360.5 by norm_num, pymod_def, hfl]
      norm_num⟩

/-- C6: for a Moon record whose sidereal longitude `L` is six-decimal exact
(as every `fullDegree` the engine produces is) and lies in `[0, 360)`, Ketu's
longitude is exactly `L`, Rahu's is `(L + 180) mod 360`, the two node
longitudes differ by exactly 180° mod 360, and both nodes are flagged
retrograde with the fixed nominal speed −0.053°/day. -/
theorem rahu_ketu_opposition (moon : Planet) (h6 : sixdec moon.fullDegree)
    (h0 : 0 ≤ moon.fullDegree) (h1 : moon.fullDegree < 360) :
    (calculate_rahu_ketu moon).2.fullDegree = moon.fullDegree ∧
    (calculate_rahu_ketu moon).1.fullDegree = pymod (moon.fullDegree + 180) 360 ∧
    pymod ((calculate_rahu_ketu moon).1.fullDegree
      - (calculate_rahu_ketu moon).2.fullDegree) 360 = 180 ∧
    (calculate_rahu_ketu moon).1.isRetro = true ∧
    (calculate_rahu_ketu moon).2.isRetro = true ∧
    (calculate_rahu_ketu moon).1.speed = -0.053 ∧
    (calculate_rahu_ketu moon).2.speed = -0.053 := by
  have hketu : (calculate_rahu_ketu moon).2.fullDegree = moon.fullDegree := by
    simp only [calculate_rahu_ketu]
    exact pyRound6_eq_self h6
  have hsix180 : sixdec (moon.fullDegree + 180) := by
    have := sixdec_add_int h6 180
    push_cast at this
    exact this
  have hrahu : (calculate_rahu_ketu moon).1.fullDegree
      = pymod (moon.fullDegree + 180) 360 := by
    simp only [calculate_rahu_ketu]
    exact pyRound6_eq_self (sixdec_pymod360 hsix180)
  have hopp : pymod (pymod (moon.fullDegree + 180) 360 - moon.fullDegree) 360 = 180 := by
    have hrw : pymod (moon.fullDegree + 180) 360 - moon.fullDegree
        = 180 + 360 * ((-⌊(moon.fullDegree + 180) / 360⌋ : ℤ) : ℚ) := by
      rw [pymod_def]
      push_cast
      ring
    rw [hrw, pymod_add_mul_int _ (by norm_num)]
    exact pymod_eq_self (by norm_num) (by norm_num) (by norm_num)
  exact ⟨hketu, hrahu, by rw [hrahu, hketu]; exact hopp, rfl, rfl, rfl, rfl⟩

/-- Witness for C6 at a concrete Moon longitude of 100.5°. -/
theorem rahu_ketu_opposition_witness :
    pymod ((calculate_rahu_ketu
        { name := "Moon", fullDegree := 100.5, normDegree := 10.5, speed := 13,
          isRetro := false, sign := "Cancer", signLord := "Moon",
          nakshatra := "Pushya", nakshatraLord := "Saturn", house := 0 }).1.fullDegree
      - (calculate_rahu_ketu
        { name := "Moon", fullDegree := 100.5, normDegree := 10.5, speed := 13,
          isRetro := false, sign := "Cancer", signLord := "Moon",
          nakshatra := "Pushya", nakshatraLord := "Saturn", house := 0 }).2.fullDegree)
      360 = 180 :=
  (rahu_ketu_opposition
    { name := "Moon", fullDegree := 100.5, normDegree := 10.5, speed := 13,
      isRetro := false, sign := "Cancer", signLord := "Moon",
      nakshatra := "Pushya", nakshatraLord := "Saturn", house := 0 }
    ⟨100500000, by norm_num⟩ (by norm_num) (by norm_num)).2.2.1

/-- The first forward step of a linearly trisected quadrant. -/
theorem trisection_step1 (s e : ℚ) :
    pymod (pymod (s + (e - s) / 3) 360 - s) 360 = pymod ((e - s) / 3) 360 := by
  have hrw : pymod (s + (e - s) / 3) 360 - s
      = (e - s) / 3 + 360 * ((-⌊(s + (e - s) / 3) / 360⌋ : ℤ) : ℚ) := by
    rw [pymod_def]
    push_cast
    ring
  rw [hrw, pymod_add_mul_int _ (by norm_num)]

/-- The middle forward step of a linearly trisected quadrant. -/
theorem trisection_step2 (s e : ℚ) :
    pymod (pymod (s + 2 * (e - s) / 3) 360 - pymod (s + (e - s) / 3) 360) 360
      = pymod ((e - s) / 3) 360 := by
  have hrw : pymod (s + 2 * (e - s) / 3) 360 - pymod (s + (e - s) / 3) 360
      = (e - s) / 3 + 360 * (((⌊(s + (e - s) / 3) / 360⌋
          - ⌊(s + 2 * (e - s) / 3) / 360⌋ : ℤ)) : ℚ) := by
    rw [pymod_def, pymod_def]
    push_cast
    ring
  rw [hrw, pymod_add_mul_int _ (by norm_num)]

/-- The last forward step of a linearly trisected quadrant. -/
theorem trisection_step3 (s e : ℚ) :
    pymod (e - pymod (s + 2 * (e - s) / 3) 360) 360 = pymod ((e - s) / 3) 360 := by
  have hrw : e - pymod (s + 2 * (e - s) / 3) 360
      = (e - s) / 3 + 360 * ((⌊(s + 2 * (e - s) / 3) / 360⌋ : ℤ) : ℚ) := by
    rw [pymod_def]
    ring
  rw [hrw, pymod_add_mul_int _ (by norm_num)]

/-- When the raw difference `e − s` of two cusps in `[0, 360)` is
non-negative, the code's trisection agrees with the spec's forward-arc
trisection. -/
theorem trisection_matches_spec (s e : ℚ) (hs0 : 0 ≤ s) (he1 : e < 360)
    (hle : s ≤ e) :
    pymod (s + (e - s) / 3) 360 = spec_trisection s e 1 ∧
    pymod (s + 2 * (e - s) / 3) 360 = spec_trisection s e 2 := by
  have harc : pymod (e - s) 360 = e - s :=
    pymod_eq_self (by linarith) (by norm_num) (by linarith)
  unfold spec_trisection
  rw [harc]
  exact ⟨congrArg (fun z => pymod z 360) (by ring),
    congrArg (fun z => pymod z 360) (by ring)⟩

/-- The `k`-th record (0-based) of the approximate Placidus house list. -/
theorem placidus_getD (ascendant mc latitude : ℚ) (k : ℕ) (hk : k < 12) :
    (calculate_houses_placidus ascendant mc latitude).getD k default =
      { house := (k : ℤ) + 1
        sign := get_sign_name
          ((pyInt (placidus_cusp ascendant mc ((k : ℤ) + 1) / 30)) % 12)
        degree := pyRound6 (placidus_cusp ascendant mc ((k : ℤ) + 1)) } := by
  simp only [calculate_houses_placidus]
  rw [getD_map_range _ hk]

/-- C8 (amended): the angular cusps 1, 4, 7, 10 equal exactly the ascendant,
midheaven+180 mod 360, ascendant+180 mod 360, and the midheaven; every
stored degree is the six-decimal rounding of the cusp map; each intermediate
cusp is placed at `start + k·(end − start)/3 mod 360` using the raw signed
difference of the bounding cusps, so the three successive forward steps of
every quadrant are equal (each ≡ `(end − start)/3` mod 360); and this
coincides with the spec's forward-arc trisection exactly on quadrants whose
raw difference is non-negative. -/
theorem placidus_cusps_structure (ascendant mc latitude : ℚ)
    (ha0 : 0 ≤ ascendant) (ha1 : ascendant < 360)
    (hm0 : 0 ≤ mc) (hm1 : mc < 360)
    (hsa : sixdec ascendant) (hsm : sixdec mc) :
    placidus_cusp ascendant mc 1 = ascendant ∧
    placidus_cusp ascendant mc 4 = pymod (mc + 180) 360 ∧
    placidus_cusp ascendant mc 7 = pymod (ascendant + 180) 360 ∧
    placidus_cusp ascendant mc 10 = mc ∧
    ((calculate_houses_placidus ascendant mc latitude).getD 0 default).degree
      = ascendant ∧
    ((calculate_houses_placidus ascendant mc latitude).getD 3 default).degree
      = pymod (mc + 180) 360 ∧
    ((calculate_houses_placidus ascendant mc latitude).getD 6 default).degree
      = pymod (ascendant + 180) 360 ∧
    ((calculate_houses_placidus ascendant mc latitude).getD 9 default).degree
      = mc ∧
    (∀ k : Fin 12,
      ((calculate_houses_placidus ascendant mc latitude).getD k default).degree
        = pyRound6 (placidus_cusp ascendant mc ((k : ℤ) + 1))) ∧
    (pymod (placidus_cusp ascendant mc 2 - placidus_cusp ascendant mc 1) 360
        = pymod ((placidus_cusp ascendant mc 4 - placidus_cusp ascendant mc 1) / 3) 360 ∧
      pymod (placidus_cusp ascendant mc 3 - placidus_cusp ascendant mc 2) 360
        = pymod ((placidus_cusp ascendant mc 4 - placidus_cusp ascendant mc 1) / 3) 360 ∧
      pymod (placidus_cusp ascendant mc 4 - placidus_cusp ascendant mc 3) 360
        = pymod ((placidus_cusp ascendant mc 4 - placidus_cusp ascendant mc 1) / 3) 360) ∧
    (pymod (placidus_cusp ascendant mc 5 - placidus_cusp ascendant mc 4) 360
        = pymod ((placidus_cusp ascendant mc 7 - placidus_cusp ascendant mc 4) / 3) 360 ∧
      pymod (placidus_cusp ascendant mc 6 - placidus_cusp ascendant mc 5) 360
        = pymod ((placidus_cusp ascendant mc 7 - placidus_cusp ascendant mc 4) / 3) 360 ∧
      pymod (placidus_cusp ascendant mc 7 - placidus_cusp ascendant mc 6) 360
        = pymod ((placidus_cusp ascendant mc 7 - placidus_cusp ascendant mc 4) / 3) 360) ∧
    (pymod (placidus_cusp ascendant mc 8 - placidus_cusp ascendant mc 7) 360
        = pymod ((placidus_cusp ascendant mc 10 - placidus_cusp ascendant mc 7) / 3) 360 ∧
      pymod (placidus_cusp ascendant mc 9 - placidus_cusp ascendant mc 8) 360
        = pymod ((placidus_cusp ascendant mc 10 - placidus_cusp ascendant mc 7) / 3) 360 ∧
      pymod (placidus_cusp ascendant mc 10 - placidus_cusp ascendant mc 9) 360
        = pymod ((placidus_cusp ascendant mc 10 - placidus_cusp ascendant mc 7) / 3) 360) ∧
    (pymod (placidus_cusp ascendant mc 11 - placidus_cusp ascendant mc 10) 360
        = pymod ((placidus_cusp ascendant mc 1 - placidus_cusp ascendant mc 10) / 3) 360 ∧
      pymod (placidus_cusp ascendant mc 12 - placidus_cusp ascendant mc 11) 360
        = pymod ((placidus_cusp ascendant mc 1 - placidus_cusp ascendant mc 10) / 3) 360 ∧
      pymod (placidus_cusp ascendant mc 1 - placidus_cusp ascendant mc 12) 360
        = pymod ((placidus_cusp ascendant mc 1 - placidus_cusp ascendant mc 10) / 3) 360) ∧
    (placidus_cusp ascendant mc 1 ≤ placidus_cusp ascendant mc 4 →
      placidus_cusp ascendant mc 2 = spec_trisection (placidus_cusp ascendant mc 1)
        (placidus_cusp ascendant mc 4) 1 ∧
      placidus_cusp ascendant mc 3 = spec_trisection (placidus_cusp ascendant mc 1)
        (placidus_cusp ascendant mc 4) 2) ∧
    (placidus_cusp ascendant mc 4 ≤ placidus_cusp ascendant mc 7 →
      placidus_cusp ascendant mc 5 = spec_trisection (placidus_cusp ascendant mc 4)
        (placidus_cusp ascendant mc 7) 1 ∧
      placidus_cusp ascendant mc 6 = spec_trisection (placidus_cusp ascendant mc 4)
        (placidus_cusp ascendant mc 7) 2) ∧
    (placidus_cusp ascendant mc 7 ≤ placidus_cusp ascendant mc 10 →
      placidus_cusp ascendant mc 8 = spec_trisection (placidus_cusp ascendant mc 7)
        (placidus_cusp ascendant mc 10) 1 ∧
      placidus_cusp ascendant mc 9 = spec_trisection (placidus_cusp ascendant mc 7)
        (placidus_cusp ascendant mc 10) 2) ∧
    (placidus_cusp ascendant mc 10 ≤ placidus_cusp ascendant mc 1 →
      placidus_cusp ascendant mc 11 = spec_trisection (placidus_cusp ascendant mc 10)
        (placidus_cusp ascendant mc 1) 1 ∧
      placidus_cusp ascendant mc 12 = spec_trisection (placidus_cusp ascendant mc 10)
        (placidus_cusp ascendant mc 1) 2) := by
  have c1 : placidus_cusp ascendant mc 1 = ascendant := by
    norm_num [placidus_cusp]
  have c2 : placidus_cusp ascendant mc 2
      = pymod (ascendant + (pymod (mc + 180) 360 - ascendant) / 3) 360 := by
    norm_num [placidus_cusp]
  have c3 : placidus_cusp ascendant mc 3
      = pymod (ascendant + 2 * (pymod (mc + 180) 360 - ascendant) / 3) 360 := by
    norm_num [placidus_cusp]
  have c4 : placidus_cusp ascendant mc 4 = pymod (mc + 180) 360 := by
    norm_num [placidus_cusp]
  have c5 : placidus_cusp ascendant mc 5
      = pymod (pymod (mc + 180) 360
          + (pymod (ascendant + 180) 360 - pymod (mc + 180) 360) / 3) 360 := by
    norm_num [placidus_cusp]
  have c6 : placidus_cusp ascendant mc 6
      = pymod (pymod (mc + 180) 360
          + 2 * (pymod (ascendant + 180) 360 - pymod (mc + 180) 360) / 3) 360 := by
    norm_num [placidus_cusp]
  have c7 : placidus_cusp ascendant mc 7 = pymod (ascendant + 180) 360 := by
    norm_num [placidus_cusp]
  have c8 : placidus_cusp ascendant mc 8
      = pymod (pymod (ascendant + 180) 360
          + (mc - pymod (ascendant + 180) 360) / 3) 360 := by
    norm_num [placidus_cusp]
  have c9 : placidus_cusp ascendant mc 9
      = pymod (pymod (ascendant + 180) 360
          + 2 * (mc - pymod (ascendant + 180) 360) / 3) 360 := by
    norm_num [placidus_cusp]
  have c10 : placidus_cusp ascendant mc 10 = mc := by
    norm_num [placidus_cusp]
  have c11 : placidus_cusp ascendant mc 11
      = pymod (mc + (ascendant - mc) / 3) 360 := by
    norm_num [placidus_cusp]
  have c12 : placidus_cusp ascendant mc 12
      = pymod (mc + 2 * (ascendant - mc) / 3) 360 := by
    norm_num [placidus_cusp]
  have hsm180 : sixdec (mc + 180) := by
    have := sixdec_add_int hsm 180
    push_cast at this
    exact this
  have hsa180 : sixdec (ascendant + 180) := by
    have := sixdec_add_int hsa 180
    push_cast at this
    exact this
  have hsD4 : sixdec (pymod (mc + 180) 360) := sixdec_pymod360 hsm180
  have hsD7 : sixdec (pymod (ascendant + 180) 360) := sixdec_pymod360 hsa180
  have hD40 : (0:ℚ) ≤ pymod (mc + 180) 360 := pymod_nonneg _ (by norm_num)
  have hD41 : pymod (mc + 180) 360 < 360 := pymod_lt _ (by norm_num)
  have hD70 : (0:ℚ) ≤ pymod (ascendant + 180) 360 := pymod_nonneg _ (by norm_num)
  have hD71 : pymod (ascendant + 180) 360 < 360 := pymod_lt _ (by norm_num)
  refine ⟨c1, c4, c7, c10, ?_, ?_, ?_, ?_, ?_, ?_, ?_, ?_, ?_, ?_, ?_, ?_, ?_⟩
  · rw [placidus_getD _ _ _ 0 (by norm_num)]
    show pyRound6 _ = _
    rw [show (((0:ℕ):ℤ) + 1) = 1 by norm_num, c1]
    exact pyRound6_eq_self hsa
  · rw [placidus_getD _ _ _ 3 (by norm_num)]
    show pyRound6 _ = _
    rw [show (((3:ℕ):ℤ) + 1) = 4 by norm_num, c4]
    exact pyRound6_eq_self hsD4
  · rw [placidus_getD _ _ _ 6 (by norm_num)]
    show pyRound6 _ = _
    rw [show (((6:ℕ):ℤ) + 1) = 7 by norm_num, c7]
    exact pyRound6_eq_self hsD7
  · rw [placidus_getD _ _ _ 9 (by norm_num)]
    show pyRound6 _ = _
    rw [show (((9:ℕ):ℤ) + 1) = 10 by norm_num, c10]
    exact pyRound6_eq_self hsm
  · intro k
    rw [placidus_getD _ _ _ k k.isLt]
  · rw [c1, c2, c3, c4]
    exact ⟨trisection_step1 _ _, trisection_step2 _ _, trisection_step3 _ _⟩
  · rw [c4, c5, c6, c7]
    exact ⟨trisection_step1 _ _, trisection_step2 _ _, trisection_step3 _ _⟩
  · rw [c7, c8, c9, c10]
    exact ⟨trisection_step1 _ _, trisection_step2 _ _, trisection_step3 _ _⟩
  · rw [c10, c11, c12, c1]
    exact ⟨trisection_step1 _ _, trisection_step2 _ _, trisection_step3 _ _⟩
  · rw [c1, c2, c3, c4]
    intro hle
    exact trisection_matches_spec _ _ ha0 hD41 hle
  · rw [c4, c5, c6, c7]
    intro hle
    exact trisection_matches_spec _ _ hD40 hD71 hle
  · rw [c7, c8, c9, c10]
    intro hle
    exact trisection_matches_spec _ _ hD70 hm1 hle
  · rw [c10, c11, c12, c1]
    intro hle
    exact trisection_matches_spec _ _ hm0 ha1 hle

/-- Witness for C8 at ascendant 10°, midheaven 280°. -/
theorem placidus_cusps_structure_witness :
    placidus_cusp 10 280 1 = 10 :=
  (placidus_cusps_structure 10 280 0 (by norm_num) (by norm_num) (by norm_num)
    (by norm_num) ⟨10000000, by norm_num⟩ ⟨280000000, by norm_num⟩).1

/-- Counterexample for C8 as stated: at ascendant 350° and midheaven 260°
(both in `[0, 360)`), house 4's cusp is 80°, and the code places house 2's
cusp at 260° — backwards through the zodiac — while linear trisection of the
forward arc from house 1's cusp (350°) to house 4's cusp (80°) puts it at
20°. -/
theorem placidus_trisection_counterexample :
    placidus_cusp 350 260 1 = 350 ∧
    placidus_cusp 350 260 4 = 80 ∧
    placidus_cusp 350 260 2 = 260 ∧
    spec_trisection (placidus_cusp 350 260 1) (placidus_cusp 350 260 4) 1 = 20 ∧
    placidus_cusp 350 260 2
      ≠ spec_trisection (placidus_cusp 350 260 1) (placidus_cusp 350 260 4) 1 := by
  have hc1 : placidus_cusp 350 260 1 = 350 := by
    norm_num [placidus_cusp]
  have e440 : pymod (440:ℚ) 360 = 80 := by
    have hfl : ⌊(440:ℚ) / 360⌋ = 1 := floor_q (by norm_num) (by norm_num)
    rw [pymod_def, hfl]
    norm_num
  have hc4 : placidus_cusp 350 260 4 = 80 := by
    norm_num [placidus_cusp]
    exact e440
  have hc2 : placidus_cusp 350 260 2 = 260 := by
    have h2 : placidus_cusp 350 260 2
        = pymod (350 + (pymod (260 + 180) 360 - 350) / 3) 360 := by
      norm_num [placidus_cusp]
    rw [h2, show (260:ℚ) + 180 = 440 by norm_num, e440,
      show (350 : ℚ) + ((80:ℚ) - 350) / 3 = 260 by norm_num]
    exact pymod_eq_self (by norm_num) (by norm_num) (by norm_num)
  have hspec : spec_trisection 350 80 1 = 20 := by
    unfold spec_trisection
    have hm270 : pymod ((80:ℚ) - 350) 360 = 90 := by
      have hfl : ⌊((80:ℚ) - 350) / 360⌋ = -1 := floor_q (by norm_num) (by norm_num)
      rw [pymod_def, hfl]
      norm_num
    rw [hm270, show (350:ℚ) + 1 * 90 / 3 = 380 by norm_num]
    have hfl : ⌊(380:ℚ) / 360⌋ = 1 := floor_q (by norm_num) (by norm_num)
    rw [pymod_def, hfl]
    norm_num
  refine ⟨hc1, hc4, hc2, by rw [hc1, hc4]; exact hspec, ?_⟩
  rw [hc1, hc4, hc2, hspec]
  norm_num

/-- C9 (code evaluated at the failing input): the request validation of
routes.py accepts latitude 90 — its bounds are the inclusive `ge=-90,
le=90` — so a request at the geographic pole is not rejected and flows into
`calculate_ascendant`, which has no pole check. -/
theorem pole_latitude_accepted :
    request_valid
      { year := 2000, month := 1, date := 1, hours := 0, minutes := 0,
        seconds := 0, latitude := 90, longitude := 0, timezone := 0,
        observation_point := "topocentric", ayanamsha := "lahiri" } := by
  unfold request_valid
  refine ⟨by norm_num, by norm_num, by norm_num, by norm_num, by norm_num,
    by norm_num, by norm_num, by norm_num, by norm_num, by norm_num,
    by norm_num, by norm_num, by norm_num, by norm_num, by norm_num,
    by norm_num, by norm_num, by norm_num, Or.inl rfl, Or.inl rfl⟩

/-- The whole-sign branch of house assignment always yields a house in
1..12, for any planet longitude and any cusp list. -/
theorem whole_sign_house_bounds (planet_long : ℚ) (houses : List House) :
    1 ≤ whole_sign_house planet_long houses ∧
    whole_sign_house planet_long houses ≤ 12 := by
  simp only [whole_sign_house]
  have h0 := Int.emod_nonneg
    (pyInt (planet_long / 30) - pyInt ((houses.headD default).degree / 30))
    (by norm_num : (12:ℤ) ≠ 0)
  have h1 := Int.emod_lt_of_pos
    (pyInt (planet_long / 30) - pyInt ((houses.headD default).degree / 30))
    (by norm_num : (0:ℤ) < 12)
  omega

/-- The Placidus branch of house assignment always yields a house in 1..12:
the first matching interval's index, or the defensive default 1. -/
theorem placidus_house_bounds (planet_long : ℚ) (houses : List House) :
    1 ≤ placidus_house planet_long houses ∧
    placidus_house planet_long houses ≤ 12 := by
  unfold placidus_house
  rcases hf : (List.range 12).find? (placidus_in_house planet_long houses)
    with _ | i
  · simp
  · have hi : i ∈ List.range 12 := List.mem_of_find?_eq_some hf
    rw [List.mem_range] at hi
    simp only []
    omega

/-- C10: house assignment returns the same planets in the same order with
every field except `house` unchanged, and assigns every planet a house in
1..12, in either mode, for any planet list and any well-formed 12-cusp
list. -/
theorem assign_planets_frame (planets : List Planet) (houses : List House)
    (house_system : String) (hlen : houses.length = 12) :
    (assign_planets_to_houses planets houses house_system).length
      = planets.length ∧
    (assign_planets_to_houses planets houses house_system).map Planet.name
      = planets.map Planet.name ∧
    (assign_planets_to_houses planets houses house_system).map Planet.fullDegree
      = planets.map Planet.fullDegree ∧
    (assign_planets_to_houses planets houses house_system).map Planet.normDegree
      = planets.map Planet.normDegree ∧
    (assign_planets_to_houses planets houses house_system).map Planet.speed
      = planets.map Planet.speed ∧
    (assign_planets_to_houses planets houses house_system).map Planet.isRetro
      = planets.map Planet.isRetro ∧
    (assign_planets_to_houses planets houses house_system).map Planet.sign
      = planets.map Planet.sign ∧
    (assign_planets_to_houses planets houses house_system).map Planet.signLord
      = planets.map Planet.signLord ∧
    (assign_planets_to_houses planets houses house_system).map Planet.nakshatra
      = planets.map Planet.nakshatra ∧
    (assign_planets_to_houses planets houses house_system).map Planet.nakshatraLord
      = planets.map Planet.nakshatraLord ∧
    (∀ p ∈ assign_planets_to_houses planets houses house_system,
      1 ≤ p.house ∧ p.house ≤ 12) := by
  refine ⟨by simp [assign_planets_to_houses], ?_, ?_, ?_, ?_, ?_, ?_, ?_, ?_,
    ?_, ?_⟩
  · simp only [assign_planets_to_houses, List.map_map]
    rfl
  · simp only [assign_planets_to_houses, List.map_map]
    rfl
  · simp only [assign_planets_to_houses, List.map_map]
    rfl
  · simp only [assign_planets_to_houses, List.map_map]
    rfl
  · simp only [assign_planets_to_houses, List.map_map]
    rfl
  · simp only [assign_planets_to_houses, List.map_map]
    rfl
  · simp only [assign_planets_to_houses, List.map_map]
    rfl
  · simp only [assign_planets_to_houses, List.map_map]
    rfl
  · simp only [assign_planets_to_houses, List.map_map]
    rfl
  · intro p hp
    simp only [assign_planets_to_houses, List.mem_map] at hp
    obtain ⟨q, _, rfl⟩ := hp
    by_cases hsys : house_system = "whole_sign"
    · simp only [hsys, if_pos rfl]
      exact whole_sign_house_bounds q.fullDegree houses
    · simp only [if_neg hsys]
      exact placidus_house_bounds q.fullDegree houses

/-- Witness for C10 on a concrete one-planet list and a 12-cusp list. -/
theorem assign_planets_frame_witness :
    (assign_planets_to_houses [default] (List.replicate 12 default)
      "whole_sign").length = ([default] : List Planet).length :=
  (assign_planets_frame [default] (List.replicate 12 default) "whole_sign"
    (by simp)).1

end Astro
